import Mathlib

/-!
Verification of the TempMon hardware-monitoring repository.

This file is a shallow embedding, in Lean 4, of the parts of the Rust
source that the specification claims talk about:

* `src/collectors/cpu_collector.rs` and `src/collectors/gpu_collector.rs`
  (rolling statistics: `CpuData`, `GpuData`);
* `src/collectors/lhm_collector.rs` (`lhm_cpu_queries`);
* `src/types/hardware.rs` and `src/types/settings.rs`
  (`HardwareLogEntry`, `ComponentType`, `TempUnits`);
* `src/utils/csv_logger.rs` (`CsvLogger`: buffered, date-rotating CSV store);
* `src/app/data_logs/history_graphs.rs` (`split_into_segments`);
* `src/app/data_logs/metadata.rs` (`LogFileMetadata`);
* the log-entry construction in `src/app/tempmon.rs`.

Modelling conventions:

* Rust `f32`/`f64` sensor values are modelled as `ℚ`.  The claims under
  scrutiny only use ordering, `min`/`max`, field-wise copying, addition
  and division, which agree with IEEE semantics on NaN-free data; the
  one place where `f32` division by zero would produce NaN (the GPU
  average getters) is modelled with `Option`, `none` standing for NaN.
* `f32::round` rounds half away from zero; `f32round` below mirrors that.
* Time: `chrono` date values are only ever consulted through their
  formatted `"%d-%m-%Y"` string, so the model passes that formatted
  string around directly ("today" is an input of `CsvLogger.write`,
  exactly as `Local::now()` is read there).
* The file system is a finite association list from path strings to file
  contents; a CSV file content is a list of records, a record a list of
  cells.  Cells keep their Rust types (`Cell.str`/`Cell.num`): the
  textual rendering of numbers is assumed lossless, which only makes the
  round-trip claim easier for the code, not harder.
* The `csv` crate is used by the source with `flexible` disabled on both
  writer and reader, so a record whose field count differs from the
  first record written/read produces an `UnequalLengths` error; the
  writer model tracks the first record length for exactly this check.
* Fallible operations return `Except String`; Rust `panic!`/`expect`
  is modelled as an `Except.error` carrying the panic message.  Rust
  methods that mutate `&mut self` and return `Result` are modelled as
  `state → state × Option error`, so the partially-mutated state at an
  early `?`-return is preserved, as in Rust.
-/

/-! ## Generic helpers -/

/-- Substring test on character lists: does `l` start with `pat`?
Backs the model of Rust `str::contains`. -/
def listStartsWith : List Char → List Char → Bool
  | _, [] => true
  | [], _ :: _ => false
  | a :: as, b :: bs => a == b && listStartsWith as bs

/-- Does `pat` occur as a contiguous sublist of `l`?  Model of Rust
`str::contains` on the underlying character list. -/
def listHasSub : List Char → List Char → Bool
  | [], pat => pat.isEmpty
  | a :: t, pat => listStartsWith (a :: t) pat || listHasSub t pat

/-- Rust `str::contains` (substring containment). -/
def strContains (s pat : String) : Bool :=
  listHasSub s.toList pat.toList

/-- Rust `f32::round`: round half away from zero.  On `ℚ`, for `x ≥ 0`
this is `⌊x + 1/2⌋`, and for negative `x` the mirrored value. -/
def f32round (x : ℚ) : ℚ :=
  if x < 0 then -((Rat.floor (-x + 1/2) : ℤ) : ℚ) else ((Rat.floor (x + 1/2) : ℤ) : ℚ)

/-- `f32` division, keeping track of definedness: dividing by zero in
`f32` yields NaN, modelled as `none`. -/
def f32div (a b : ℚ) : Option ℚ :=
  if b = 0 then none else some (a / b)

/-- `Vec::push` followed by `remove(0)` when the length exceeds 30:
the bounded-history update used by `CpuData::update_lhm_data` and
`CpuData::update` (capacity 30, oldest evicted first). -/
def pushCap30 (l : List ℚ) (x : ℚ) : List ℚ :=
  let a := l ++ [x]
  if 30 < a.length then a.tail else a

/-! ## `src/collectors/cpu_collector.rs` — `CpuData`

Fields that only mirror platform discovery (`core_count`,
`base_cpu_frequency`, `frequency_monitor`, `current_frequency`) are not
part of any claim and are omitted; every field read or written by
`update_lhm_data` / `update` / the average getters is kept. -/

/-- `CpuCoreLHMQuery` from `src/types/hardware.rs`. -/
structure CpuCoreLHMQuery where
  name : String
  value : ℚ
deriving DecidableEq

structure CpuData where
  first_run : Bool
  name : String
  temp : ℚ
  temp_min : ℚ
  temp_max : ℚ
  temp_avg : List ℚ
  usage : ℚ
  usage_min : ℚ
  usage_max : ℚ
  usage_avg : List ℚ
  core_utilization : List CpuCoreLHMQuery
  total_power_draw : ℚ
  core_power_draw : List CpuCoreLHMQuery
deriving DecidableEq

/-- `CpuData::new`: `first_run = true`, temperature stats zeroed, usage
stats seeded from the current global usage `u0`, histories empty. -/
def CpuData.init (nm : String) (u0 : ℚ) (cores : List CpuCoreLHMQuery) : CpuData :=
  { first_run := true
    name := nm
    temp := 0, temp_min := 0, temp_max := 0, temp_avg := []
    usage := u0, usage_min := u0, usage_max := u0, usage_avg := []
    core_utilization := cores
    total_power_draw := 0, core_power_draw := [] }

/-- `CpuData::update_lhm_data`: on first run seed `temp_min` (only the
minimum!) from the incoming sample, then set current values, fold the
new sample into min/max, and push it into the capacity-30 history. -/
def CpuData.update_lhm_data (c : CpuData) (temps : ℚ × ℚ × List CpuCoreLHMQuery) : CpuData :=
  let tmin0 := if c.first_run then temps.1 else c.temp_min
  { c with
    first_run := false
    temp := temps.1
    total_power_draw := temps.2.1
    core_power_draw := temps.2.2
    temp_max := max c.temp_max temps.1
    temp_min := min tmin0 temps.1
    temp_avg := pushCap30 c.temp_avg temps.1 }

/-- `CpuData::update`: refresh global usage from sysinfo (the sampled
value and per-core values are inputs here), update usage min/max and
the capacity-30 usage history, and copy per-core usage values. -/
def CpuData.update (c : CpuData) (usage_update : ℚ) (coreVals : List ℚ) : CpuData :=
  { c with
    usage := usage_update
    usage_avg := pushCap30 c.usage_avg usage_update
    usage_max := max c.usage_max usage_update
    usage_min := min c.usage_min usage_update
    core_utilization :=
      (c.core_utilization.zip coreVals).map (fun p => { p.1 with value := p.2 })
        ++ c.core_utilization.drop coreVals.length }

/-- `CpuData::get_temp_avg`: guarded against an empty history (returns
the current temperature), otherwise mean rounded to 1 decimal. -/
def CpuData.get_temp_avg (c : CpuData) : ℚ :=
  if c.temp_avg = [] then c.temp
  else f32round (c.temp_avg.sum / (c.temp_avg.length : ℚ) * 10) / 10

/-- `CpuData::get_usage_avg`: guarded against an empty history (returns
the current usage), otherwise mean rounded to 2 decimals. -/
def CpuData.get_usage_avg (c : CpuData) : ℚ :=
  if c.usage_avg = [] then c.usage
  else f32round (c.usage_avg.sum / (c.usage_avg.length : ℚ) * 100) / 100

/-! ## `src/collectors/gpu_collector.rs` — `GpuData` -/

/-- `GpuLHMQuery` from `src/types/hardware.rs`. -/
structure GpuLHMQuery where
  core_temp : ℚ
  memory_junction_temp : ℚ
  core_clock : ℚ
  memory_clock : ℚ
  power : ℚ
  core_load : ℚ
  memory_used : ℚ
  memory_total : ℚ
deriving DecidableEq

structure GpuData where
  first_run : Bool
  name : String
  core_temp : ℚ
  core_temp_max : ℚ
  core_temp_min : ℚ
  core_temp_avg : List ℚ
  memory_junction_temp : ℚ
  memory_junction_temp_max : ℚ
  memory_junction_temp_min : ℚ
  memory_junction_temp_avg : List ℚ
  core_clock : ℚ
  memory_clock : ℚ
  power : ℚ
  core_load : ℚ
  memory_used : ℚ
  memory_total : ℚ
deriving DecidableEq

/-- `GpuData::new`: all stats zeroed, `first_run = true`. -/
def GpuData.init (nm : String) : GpuData :=
  { first_run := true
    name := nm
    core_temp := 0, core_temp_max := 0, core_temp_min := 0, core_temp_avg := []
    memory_junction_temp := 0, memory_junction_temp_max := 0
    memory_junction_temp_min := 0, memory_junction_temp_avg := []
    core_clock := 0, memory_clock := 0, power := 0, core_load := 0
    memory_used := 0, memory_total := 0 }

/-- `GpuData::update_lhm_data`: on first run seed both min and max of
both temperatures from the incoming sample; then copy current values,
fold into min/max, and push into the history vectors.  Note that unlike
the CPU histories these pushes are NOT capped at 30 samples. -/
def GpuData.update_lhm_data (g : GpuData) (data : GpuLHMQuery) : GpuData :=
  let ctmax0 := if g.first_run then data.core_temp else g.core_temp_max
  let ctmin0 := if g.first_run then data.core_temp else g.core_temp_min
  let mjmax0 := if g.first_run then data.memory_junction_temp else g.memory_junction_temp_max
  let mjmin0 := if g.first_run then data.memory_junction_temp else g.memory_junction_temp_min
  { g with
    first_run := false
    core_temp := data.core_temp
    memory_junction_temp := data.memory_junction_temp
    core_clock := data.core_clock
    power := data.power
    core_load := data.core_load
    memory_used := data.memory_used
    memory_total := data.memory_total
    memory_clock := data.memory_clock
    core_temp_max := max ctmax0 data.core_temp
    core_temp_min := min ctmin0 data.core_temp
    memory_junction_temp_max := max mjmax0 data.memory_junction_temp
    memory_junction_temp_min := min mjmin0 data.memory_junction_temp
    core_temp_avg := g.core_temp_avg ++ [data.core_temp]
    memory_junction_temp_avg := g.memory_junction_temp_avg ++ [data.memory_junction_temp] }

/-- `GpuData::get_core_temp_avg`: mean of the history rounded to 2
decimals, with no emptiness guard — an empty history divides by zero
(`none` = NaN in `f32`). -/
def GpuData.get_core_temp_avg (g : GpuData) : Option ℚ :=
  (f32div g.core_temp_avg.sum (g.core_temp_avg.length : ℚ)).map
    (fun avg => f32round (avg * 100) / 100)

/-- `GpuData::get_memory_junction_temp_avg`: same shape, same missing
guard. -/
def GpuData.get_memory_junction_temp_avg (g : GpuData) : Option ℚ :=
  (f32div g.memory_junction_temp_avg.sum (g.memory_junction_temp_avg.length : ℚ)).map
    (fun avg => f32round (avg * 100) / 100)

/-! ### Update sequences over the statistics records -/

/-- One poll-cycle mutation of `CpuData`: either the LHM callback
(`update_lhm_data`) or the sysinfo refresh (`update`). -/
inductive CpuStep where
  | lhm (temps : ℚ × ℚ × List CpuCoreLHMQuery)
  | sysu (usage : ℚ) (coreVals : List ℚ)
deriving DecidableEq

def CpuData.applyStep (c : CpuData) : CpuStep → CpuData
  | .lhm t => c.update_lhm_data t
  | .sysu u cv => c.update u cv

def CpuData.applySteps (c : CpuData) (steps : List CpuStep) : CpuData :=
  steps.foldl CpuData.applyStep c

/-- The `min ≤ current ≤ max` invariant for every quantity `CpuData`
tracks. -/
def cpuStatsInv (c : CpuData) : Prop :=
  c.temp_min ≤ c.temp ∧ c.temp ≤ c.temp_max ∧
  c.usage_min ≤ c.usage ∧ c.usage ≤ c.usage_max

/-- The `min ≤ current ≤ max` invariant for both GPU temperatures. -/
def gpuStatsInv (g : GpuData) : Prop :=
  g.core_temp_min ≤ g.core_temp ∧ g.core_temp ≤ g.core_temp_max ∧
  g.memory_junction_temp_min ≤ g.memory_junction_temp ∧
  g.memory_junction_temp ≤ g.memory_junction_temp_max

/-! ## `src/collectors/lhm_collector.rs` — `lhm_cpu_queries`

The opaque async sensor client is modelled as data: each CPU device
carries the sensor descriptor lists the client would return for the
temperature and power queries, plus the `get_sensor_value_by_idx`
lookup.  Transport-level `Result`s that the source immediately
`unwrap`s are modelled as already successful; the `expect`/`unwrap`
calls on *missing data* are the `Except.error` cases below, each
carrying its Rust panic message. -/

structure LhmSensor where
  name : String
  index : Nat
  value : ℚ
deriving DecidableEq

structure CpuDevice where
  tempSensors : List LhmSensor
  powerSensors : List LhmSensor
  sensorValue : Nat → Option ℚ

/-- The priority-ordered CPU package-temperature label matchers of
`lhm_cpu_queries` (first match wins via `Iterator::find`). -/
def matchesCpuTempSensor (s : LhmSensor) : Bool :=
  s.name == "CPU Package" || s.name == "Core (Tctl/Tdie)" || s.name == "CPU Core"
    || strContains s.name "Package" || strContains s.name "Tctl"

/-- The body of the `for cpu in cpu_list` loop of `lhm_cpu_queries`,
threading the three accumulator variables. -/
def lhmCpuGo : List CpuDevice → ℚ → ℚ → List CpuCoreLHMQuery →
    Except String (ℚ × ℚ × List CpuCoreLHMQuery)
  | [], temp, power, corePower => .ok (temp, power, corePower)
  | cpu :: rest, _temp, _power, _corePower =>
    match cpu.tempSensors.find? matchesCpuTempSensor with
    | none => .error "Missing cpu temp sensor"
    | some temp_sensor =>
      match cpu.powerSensors.find? (fun s => strContains s.name "Package") with
      | none => .error "unwrap on None"
      | some total =>
        let corePower2 := (cpu.powerSensors.filter (fun s => strContains s.name "Core")).map
          (fun s => { name := s.name, value := s.value : CpuCoreLHMQuery })
        match cpu.sensorValue temp_sensor.index with
        | none => .error "cpu temp sensor is now unavailable"
        | some v => lhmCpuGo rest v total.value corePower2

/-- `lhm_cpu_queries`: accumulators start at zero/empty; each device in
the list is processed in turn and the last device wins. -/
def lhm_cpu_queries (cpu_list : List CpuDevice) : Except String (ℚ × ℚ × List CpuCoreLHMQuery) :=
  lhmCpuGo cpu_list 0 0 []

/-! ## `src/types/settings.rs` — `TempUnits` -/

inductive TempUnits where
  | Celsius
  | Fahrenheit
deriving DecidableEq

/-- `TempUnits::convert`. -/
def TempUnits.convert (self : TempUnits) (value : ℚ) (to_unit : TempUnits) : ℚ :=
  if self = to_unit then value
  else
    match self, to_unit with
    | .Celsius, .Fahrenheit => value * 9 / 5 + 32
    | .Fahrenheit, .Celsius => (value - 32) * 5 / 9
    | _, _ => value

/-- The `Display` implementation for `TempUnits`. -/
def TempUnits.name : TempUnits → String
  | .Celsius => "Celsius"
  | .Fahrenheit => "Fahrenheit"

/-! ## `src/types/hardware.rs` — `ComponentType`, `HardwareLogEntry` -/

inductive ComponentType where
  | CPU
  | GPU
  | RAM
  | SSD
deriving DecidableEq

/-- The persisted row type.  Numeric fields are `ℚ` (see the header
comment on cell modelling). -/
structure HardwareLogEntry where
  timestamp : String
  selected_process : String
  component_type : ComponentType
  model_name : String
  temperature_unit : String
  temperature : ℚ
  usage : ℚ
  power_draw : ℚ
deriving DecidableEq

/-! ## Log-entry construction in `src/app/tempmon.rs`

`TempMonMessage::CpuValuesUpdated` and `::GpuValuesUpdated` build the
`HardwareLogEntry` that is handed to `CsvLogger::write`.  The
timestamp string and the preformatted process annotation string are
inputs (they come from `chrono` and the plot window, respectively). -/

/-- Entry construction in the `CpuValuesUpdated` handler: the stored
temperature is `TempUnits::Celsius.convert(cpu.temp, selected_unit)` —
the conversion to the display unit happens here, at write time. -/
def make_cpu_log_entry (ts selProc : String) (selected_unit : TempUnits)
    (c : CpuData) : HardwareLogEntry :=
  { timestamp := ts
    selected_process := selProc
    component_type := .CPU
    model_name := c.name
    temperature_unit := selected_unit.name
    temperature := TempUnits.convert .Celsius c.temp selected_unit
    usage := c.usage
    power_draw := c.total_power_draw }

/-- Entry construction in the `GpuValuesUpdated` handler. -/
def make_gpu_log_entry (ts selProc : String) (selected_unit : TempUnits)
    (g : GpuData) : HardwareLogEntry :=
  { timestamp := ts
    selected_process := selProc
    component_type := .GPU
    model_name := g.name
    temperature_unit := selected_unit.name
    temperature := TempUnits.convert .Celsius g.core_temp selected_unit
    usage := g.core_load
    power_draw := g.power }

/-- Point construction in `TemperatureGraph::update_data`
(`src/app/graphs/temp_graph.rs`): `x` is seconds since the first
timestamp, `y` is `entry.temperature` used as stored, with no unit
conversion (the source comments: "temp gets converted in main tempmon
update loop"). -/
def temp_graph_point (start_ts ts : ℤ) (e : HardwareLogEntry) : ℚ × ℚ :=
  (((ts - start_ts : ℤ) : ℚ), e.temperature)

/-! ## `src/utils/csv_logger.rs` — the Persistent Log Store

The file system is an association list from path strings to file
contents (lists of CSV records).  A `CsvWriter` models `csv::Writer` in
append mode with `flexible` disabled: it remembers the length of the
first record it wrote and rejects records of any other length with an
`UnequalLengths` error, as the `csv` crate documents.  Records written
through a successful `serialize`/`write_record` are visible in the file
after `flush`; since the code only observes files after flushing, the
model appends them directly. -/

/-- One CSV cell.  `str` for text fields (the `ComponentType` enum is
serialized as its variant name), `num` for `f32` fields. -/
inductive Cell where
  | str (s : String)
  | num (q : ℚ)
deriving DecidableEq

/-- A file system: path → list of CSV records. -/
abbrev FS := List (String × List (List Cell))

def fsLookup : FS → String → Option (List (List Cell))
  | [], _ => none
  | (p, rows) :: rest, q => if p = q then some rows else fsLookup rest q

/-- `Path::exists`. -/
def fsExists (fs : FS) (p : String) : Bool :=
  (fsLookup fs p).isSome

/-- `OpenOptions::create(true)`: create an empty file if absent. -/
def fsCreate (fs : FS) (p : String) : FS :=
  if fsExists fs p then fs else fs ++ [(p, [])]

/-- Append one record to the file at `p` (append-mode write). -/
def fsAppend : FS → String → List Cell → FS
  | [], _, _ => []
  | (p, rows) :: rest, q, row =>
    if p = q then (p, rows ++ [row]) :: rest else (p, rows) :: fsAppend rest q row

/-- `csv::Writer` over a file handle opened in append mode:
`target` is the path of the underlying `File`, `firstFieldCount` the
length of the first record written through this writer (the
`flexible = false` bookkeeping). -/
structure CsvWriter where
  target : String
  firstFieldCount : Option Nat
deriving DecidableEq

/-- `Writer::write_record` / `Writer::serialize` under
`flexible = false`: the first record fixes the expected field count,
later records of a different length fail with `UnequalLengths`. -/
def CsvWriter.writeRecord (w : CsvWriter) (fs : FS) (row : List Cell) :
    Except String (CsvWriter × FS) :=
  match w.firstFieldCount with
  | none => .ok ({ w with firstFieldCount := some row.length }, fsAppend fs w.target row)
  | some n =>
    if row.length = n then .ok (w, fsAppend fs w.target row)
    else .error "UnequalLengths"

/-- The header record written by `CsvLogger::open_csv_writer` for a
brand-new file — six names, two fewer than `HardwareLogEntry` has
fields. -/
def headerRow : List Cell :=
  [.str "timestamp", .str "component_type", .str "temperature_unit",
   .str "temperature", .str "usage", .str "power_draw"]

/-- `CsvLogger::open_csv_writer`: open in append mode (creating the
file if needed) and write the header record if and only if the file did
not previously exist.  The header is the first record of a fresh
writer, so that write cannot fail. -/
def open_csv_writer (fs : FS) (path : String) : CsvWriter × FS :=
  let file_exists := fsExists fs path
  let fs2 := fsCreate fs path
  if file_exists then ({ target := path, firstFieldCount := none }, fs2)
  else
    ({ target := path, firstFieldCount := some headerRow.length },
     fsAppend fs2 path headerRow)

/-- Serde serialization of one `HardwareLogEntry`: eight cells, in
declaration order. -/
def serializeEntry (e : HardwareLogEntry) : List Cell :=
  [.str e.timestamp, .str e.selected_process,
   .str (match e.component_type with
         | .CPU => "CPU" | .GPU => "GPU" | .RAM => "RAM" | .SSD => "SSD"),
   .str e.model_name, .str e.temperature_unit,
   .num e.temperature, .num e.usage, .num e.power_draw]

/-- `constants::logging`. -/
def DEV_BUFFER_SIZE : Nat := 1
def PROD_BUFFER_SIZE : Nat := 50
def GRAPH_DATA_BUFFER_MAX : Nat := 1000

/-- `CsvLogger::get_logs_dir`: `cfg!(debug_assertions)` is the `dbg`
flag; the packaged-mode per-user directory is represented by its
symbolic path. -/
def get_logs_dir (dbg : Bool) : String :=
  if dbg then "logs" else "LOCALAPPDATA/TempMon/logs"

structure CsvLogger where
  wtr : CsvWriter
  path : String
  /-- `timestamp`, consulted only through `format("%d-%m-%Y")`; the
  model stores that formatted date string. -/
  timestampDate : String
  write_buffer_size : Nat
  write_buffer : List HardwareLogEntry
  graph_data_buffer : List HardwareLogEntry

/-- `CsvLogger::new`: pick the directory (custom or default), build the
day-stamped path — note the `"{}_cpu_logs.csv"` file name here, unlike
the `"{}_hardware_logs.csv"` name used on rotation — and open the
writer. -/
def CsvLogger.new (custom_dir_path : Option String) (dbg : Bool)
    (todayDate : String) (fs : FS) : CsvLogger × FS :=
  let dir := match custom_dir_path with
    | some custom => custom
    | none => get_logs_dir dbg
  let path := dir ++ "/" ++ todayDate ++ "_cpu_logs.csv"
  let (wtr, fs2) := open_csv_writer fs path
  ({ wtr := wtr
     path := path
     timestampDate := todayDate
     write_buffer_size := if dbg then DEV_BUFFER_SIZE else PROD_BUFFER_SIZE
     write_buffer := []
     graph_data_buffer := [] }, fs2)

/-- The serialization loop of `flush_buffer`: serialize buffered
entries in order; on the first failure stop and report it (the Rust
`?` returns early, keeping the rows already written). -/
def flushLoop (w : CsvWriter) (fs : FS) :
    List HardwareLogEntry → (CsvWriter × FS) × Option String
  | [] => ((w, fs), none)
  | e :: rest =>
    match w.writeRecord fs (serializeEntry e) with
    | .ok (w2, fs2) => flushLoop w2 fs2 rest
    | .error msg => ((w, fs), some msg)

/-- `CsvLogger::flush_buffer`: recreate the file (fresh writer, header
included) if it was deleted externally, then serialize the buffered
entries and clear the buffer — the buffer is cleared only after every
row was written successfully. -/
def CsvLogger.flush_buffer (lg : CsvLogger) (fs : FS) : (CsvLogger × FS) × Option String :=
  let (lg2, fsA) :=
    if fsExists fs lg.path then (lg, fs)
    else
      let (w, fs2) := open_csv_writer fs lg.path
      ({ lg with wtr := w }, fs2)
  match flushLoop lg2.wtr fsA lg2.write_buffer with
  | ((w2, fs2), none) => (({ lg2 with wtr := w2, write_buffer := [] }, fs2), none)
  | ((w2, fs2), some msg) => (({ lg2 with wtr := w2 }, fs2), some msg)

/-- The tail of `CsvLogger::write` after the rotation check: extend the
bounded graph ring buffer (capacity `GRAPH_DATA_BUFFER_MAX`, oldest
drained first), append to the write buffer, and flush once the buffer
reaches `write_buffer_size`. -/
def CsvLogger.writeTail (entries : List HardwareLogEntry) (lg : CsvLogger) (fs : FS) :
    (CsvLogger × FS) × Option String :=
  let gdb := lg.graph_data_buffer ++ entries
  let gdb2 := if GRAPH_DATA_BUFFER_MAX < gdb.length
    then gdb.drop (gdb.length - GRAPH_DATA_BUFFER_MAX) else gdb
  let lg2 := { lg with
    graph_data_buffer := gdb2
    write_buffer := lg.write_buffer ++ entries }
  if lg2.write_buffer_size ≤ lg2.write_buffer.length then lg2.flush_buffer fs
  else ((lg2, fs), none)

/-- `CsvLogger::write`: compare the formatted current date (`today`)
with the stored one; on mismatch flush the pending buffer under the old
path first (a failure here propagates and aborts the write), then
switch to the new day path `"{}_hardware_logs.csv"` under
`get_logs_dir` and reopen the writer; finally run the buffering tail. -/
def CsvLogger.write (dbg : Bool) (today : String) (entries : List HardwareLogEntry)
    (lg : CsvLogger) (fs : FS) : (CsvLogger × FS) × Option String :=
  if today ≠ lg.timestampDate then
    match lg.flush_buffer fs with
    | ((lg2, fs2), some msg) => ((lg2, fs2), some msg)
    | ((lg2, fs2), none) =>
      let logs_dir := get_logs_dir dbg
      let path := logs_dir ++ "/" ++ today ++ "_hardware_logs.csv"
      let (w, fs3) := open_csv_writer fs2 path
      CsvLogger.writeTail entries
        { lg2 with timestampDate := today, path := path, wtr := w } fs3
  else
    CsvLogger.writeTail entries lg fs

/-! ### Reading a log file back (`CsvLogger::read`)

`csv::ReaderBuilder::new().delimiter(b';')` keeps `has_headers = true`
and `flexible = false`: the first record is the header, every data
record must have the same number of fields as the header, and serde
deserialization binds struct fields to columns by header name. -/

def fieldIdx (header : List Cell) (nm : String) : Except String Nat :=
  match header.findIdx? (fun f => f = Cell.str nm) with
  | some i => .ok i
  | none => .error ("missing field " ++ nm)

def strAt (row : List Cell) (i : Nat) : Except String String :=
  match row.get? i with
  | some (Cell.str s) => .ok s
  | _ => .error "invalid field"

def numAt (row : List Cell) (i : Nat) : Except String ℚ :=
  match row.get? i with
  | some (Cell.num q) => .ok q
  | _ => .error "invalid field"

def parseComponentType (s : String) : Except String ComponentType :=
  if s = "CPU" then .ok .CPU
  else if s = "GPU" then .ok .GPU
  else if s = "RAM" then .ok .RAM
  else if s = "SSD" then .ok .SSD
  else .error "unknown variant"

/-- Serde deserialization of one record into `HardwareLogEntry`,
binding each struct field to the column whose header cell carries the
field name. -/
def deserializeEntry (header row : List Cell) : Except String HardwareLogEntry := do
  let ts ← fieldIdx header "timestamp" >>= strAt row
  let sp ← fieldIdx header "selected_process" >>= strAt row
  let ct ← fieldIdx header "component_type" >>= strAt row >>= parseComponentType
  let mn ← fieldIdx header "model_name" >>= strAt row
  let tu ← fieldIdx header "temperature_unit" >>= strAt row
  let t ← fieldIdx header "temperature" >>= numAt row
  let u ← fieldIdx header "usage" >>= numAt row
  let p ← fieldIdx header "power_draw" >>= numAt row
  pure { timestamp := ts, selected_process := sp, component_type := ct,
         model_name := mn, temperature_unit := tu,
         temperature := t, usage := u, power_draw := p }

def readRows (header : List Cell) : List (List Cell) → Except String (List HardwareLogEntry)
  | [] => .ok []
  | row :: rest =>
    if row.length = header.length then do
      let e ← deserializeEntry header row
      let es ← readRows header rest
      pure (e :: es)
    else .error "UnequalLengths"

/-- `CsvLogger::read` on an explicit path: full deserialize of the file
at `path`. -/
def readFile (fs : FS) (path : String) : Except String (List HardwareLogEntry) :=
  match fsLookup fs path with
  | none => .error "No such file"
  | some [] => .ok []
  | some (header :: dataRows) => readRows header dataRows

/-- `CsvLogger::read`: reads `self.path`. -/
def CsvLogger.read (lg : CsvLogger) (fs : FS) : Except String (List HardwareLogEntry) :=
  readFile fs lg.path

/-! ## `src/app/data_logs/history_graphs.rs` — `split_into_segments`

Points are `(x, y)` pairs in `ℚ`.  The source fixes the gap threshold
to the constant `GAP_THRESHOLD_MINUTES = 1.0`; the loop is embedded
with the threshold as a parameter and the source function is the
instance at that constant. -/

def GAP_THRESHOLD_MINUTES : ℚ := 1

/-- The `for i in 1..points.len()` loop: `prev` is `points[i-1]`,
`cur` the segment being grown, `segs` the finished segments. -/
def segGo (q : ℚ) : List (ℚ × ℚ) → (ℚ × ℚ) → List (ℚ × ℚ) →
    List (List (ℚ × ℚ)) → List (List (ℚ × ℚ))
  | [], _prev, cur, segs =>
    if cur.isEmpty then segs else segs ++ [cur]
  | p :: rest, prev, cur, segs =>
    if q < p.1 - prev.1 then
      segGo q rest p [p] (if cur.isEmpty then segs else segs ++ [cur])
    else
      segGo q rest p (cur ++ [p]) segs

/-- `split_into_segments` with the gap threshold as a parameter. -/
def splitSegmentsGap (q : ℚ) (points : List (ℚ × ℚ)) : List (List (ℚ × ℚ)) :=
  match points with
  | [] => []
  | p :: rest => segGo q rest p [p] []

/-- `split_into_segments` as in the source (threshold fixed to
`GAP_THRESHOLD_MINUTES`). -/
def split_into_segments (points : List (ℚ × ℚ)) : List (List (ℚ × ℚ)) :=
  splitSegmentsGap GAP_THRESHOLD_MINUTES points

/-- Consecutive points inside one segment: gap at most `q`. -/
def gapLE (q : ℚ) (a b : ℚ × ℚ) : Prop := b.1 - a.1 ≤ q

/-- Between two consecutive segments the boundary gap exceeds `q`. -/
def segBreak (q : ℚ) (s t : List (ℚ × ℚ)) : Prop :=
  ∀ a ∈ s.getLast?, ∀ b ∈ t.head?, q < b.1 - a.1

/-! ## `src/app/data_logs/metadata.rs` — `LogFileMetadata`

A scanned file is a list of raw CSV records as produced by
`rdr.records()`: each item either parses (`Except.ok` record of string
fields) or is a per-record parse error.  `HashSet<String>` is modelled
as a duplicate-free list built by insert-if-absent, preserving
insertion order. -/

/-- `strip_suffix`: drop `suf` from the end of `s` if present. -/
def stripSuffixStr (s suf : String) : Option String :=
  let l := s.toList
  let sl := suf.toList
  if sl.length ≤ l.length then
    if l.drop (l.length - sl.length) = sl then
      some (String.mk (l.take (l.length - sl.length)))
    else none
  else none

/-- `HashSet::insert`, as insert-if-absent on a list. -/
def setInsert (acc : List String) (x : String) : List String :=
  if x ∈ acc then acc else acc ++ [x]

/-- Rust `str::split(sep)` on the character list: `""` yields `[""]`,
and every separator starts a new group. -/
def splitOnChar (sep : Char) : List Char → List (List Char)
  | [] => [[]]
  | c :: rest =>
    let r := splitOnChar sep rest
    if c = sep then [] :: r
    else
      match r with
      | [] => [[c]]
      | g :: gs => (c :: g) :: gs

/-- Rust `str::split(sep)`. -/
def strSplit (s : String) (sep : Char) : List String :=
  (splitOnChar sep s.toList).map String.mk

def isWhitespaceChar (c : Char) : Bool :=
  c = ' ' || c = '\t' || c = '\n' || c = '\r'

/-- Rust `str::trim`: strip leading and trailing whitespace. -/
def trimStr (s : String) : String :=
  String.mk (((s.toList.dropWhile isWhitespaceChar).reverse.dropWhile
    isWhitespaceChar).reverse)

/-- Processing of one non-empty `selected_process` field: split on
commas, take the trimmed name portion before the first `=` of each
token, and insert it into the set if non-empty. -/
def collectProcs (acc : List String) (field : String) : List String :=
  (strSplit field ',').foldl
    (fun acc2 tok =>
      let nm := trimStr ((strSplit tok '=').headD "")
      if nm = "" then acc2 else setInsert acc2 nm)
    acc

/-- The record loop of `check_has_process_data`: count records, and for
each record whose index-1 field exists and is non-empty, collect its
process tokens.  A record-level parse error propagates out (the `?` in
the loop), discarding everything. -/
def checkGo : List (Except String (List String)) → List String → Nat →
    Except String (List String × Nat)
  | [], procs, n => .ok (procs, n)
  | .error e :: _, _, _ => .error e
  | .ok record :: rest, procs, n =>
    let procs2 := match record[1]? with
      | some field => if field ≠ "" then collectProcs procs field else procs
      | none => procs
    checkGo rest procs2 (n + 1)

/-- `LogFileMetadata::check_has_process_data`. -/
def check_has_process_data (rows : List (Except String (List String))) :
    Except String (List String × Nat) :=
  checkGo rows [] 0

structure LogFileMetadata where
  filename : String
  date : String
  has_process_data : Bool
  processes : List String
  entry_count : Nat
deriving DecidableEq

/-- `LogFileMetadata::from_path`: parse the date out of the
`"DD-MM-YYYY_hardware_logs.csv"` file name (files with any other name
yield `none` and are skipped), scan the rows, and fall back to the
default `(∅, 0)` when the scan fails (`unwrap_or_default`).  The
file-size field is omitted (pure filesystem metadata). -/
def LogFileMetadata.from_path (filename : String)
    (rows : List (Except String (List String))) : Option LogFileMetadata :=
  match stripSuffixStr filename "_hardware_logs.csv" with
  | none => none
  | some date =>
    let scanned := match check_has_process_data rows with
      | .ok r => r
      | .error _ => ([], 0)
    some { filename := filename
           date := date
           has_process_data := !scanned.1.isEmpty
           processes := scanned.1
           entry_count := scanned.2 }

/-! ## Claims about the rolling statistics (C2, C3, C10) -/

lemma cpuStatsInv_update_lhm (c : CpuData) (t : ℚ × ℚ × List CpuCoreLHMQuery)
    (h : cpuStatsInv c) : cpuStatsInv (c.update_lhm_data t) := by
  obtain ⟨-, -, h3, h4⟩ := h
  refine ⟨?_, ?_, ?_, ?_⟩ <;>
    simp only [cpuStatsInv, CpuData.update_lhm_data]
  · exact min_le_right _ _
  · exact le_max_right _ _
  · exact h3
  · exact h4

lemma cpuStatsInv_update (c : CpuData) (u : ℚ) (cv : List ℚ)
    (h : cpuStatsInv c) : cpuStatsInv (c.update u cv) := by
  obtain ⟨h1, h2, -, -⟩ := h
  refine ⟨?_, ?_, ?_, ?_⟩ <;>
    simp only [cpuStatsInv, CpuData.update]
  · exact h1
  · exact h2
  · exact min_le_right _ _
  · exact le_max_right _ _

lemma cpuStatsInv_applyStep (c : CpuData) (s : CpuStep) (h : cpuStatsInv c) :
    cpuStatsInv (c.applyStep s) := by
  cases s with
  | lhm t => exact cpuStatsInv_update_lhm c t h
  | sysu u cv => exact cpuStatsInv_update c u cv h

lemma cpuStatsInv_applySteps :
    ∀ (steps : List CpuStep) (c : CpuData), cpuStatsInv c → cpuStatsInv (c.applySteps steps)
  | [], _, h => h
  | s :: rest, c, h =>
    cpuStatsInv_applySteps rest (c.applyStep s) (cpuStatsInv_applyStep c s h)

lemma cpuStatsInv_init (nm : String) (u0 : ℚ) (cores : List CpuCoreLHMQuery) :
    cpuStatsInv (CpuData.init nm u0 cores) :=
  ⟨le_refl _, le_refl _, le_refl _, le_refl _⟩

/-- C2: for every sequence of updates to the device statistics,
`min ≤ current ≤ max` holds after every update for every tracked
quantity (CPU temperature and usage, GPU core and memory-junction
temperature), the running max never decreases across updates and the
running min never increases.  Monotonicity is stated for states past
the first-sample seeding (`first_run = false`), matching the
specification sentence that the first update seeds min/max from the
first sample rather than a sentinel; CPU usage has no such seeding and
is monotone unconditionally. -/
theorem C2_min_max_invariant :
    (∀ (nm : String) (u0 : ℚ) (cores : List CpuCoreLHMQuery) (steps : List CpuStep),
      cpuStatsInv (CpuData.applySteps (CpuData.init nm u0 cores) steps))
    ∧ (∀ (g : GpuData) (q : GpuLHMQuery), gpuStatsInv (g.update_lhm_data q))
    ∧ (∀ (c : CpuData) (t : ℚ × ℚ × List CpuCoreLHMQuery), c.first_run = false →
        c.temp_max ≤ (c.update_lhm_data t).temp_max
        ∧ (c.update_lhm_data t).temp_min ≤ c.temp_min)
    ∧ (∀ (c : CpuData) (u : ℚ) (cv : List ℚ),
        c.usage_max ≤ (c.update u cv).usage_max
        ∧ (c.update u cv).usage_min ≤ c.usage_min)
    ∧ (∀ (g : GpuData) (q : GpuLHMQuery), g.first_run = false →
        g.core_temp_max ≤ (g.update_lhm_data q).core_temp_max
        ∧ (g.update_lhm_data q).core_temp_min ≤ g.core_temp_min
        ∧ g.memory_junction_temp_max ≤ (g.update_lhm_data q).memory_junction_temp_max
        ∧ (g.update_lhm_data q).memory_junction_temp_min ≤ g.memory_junction_temp_min) := by
  refine ⟨?_, ?_, ?_, ?_, ?_⟩
  · intro nm u0 cores steps
    exact cpuStatsInv_applySteps steps _ (cpuStatsInv_init nm u0 cores)
  · intro g q
    refine ⟨?_, ?_, ?_, ?_⟩ <;> simp only [gpuStatsInv, GpuData.update_lhm_data]
    · exact min_le_right _ _
    · exact le_max_right _ _
    · exact min_le_right _ _
    · exact le_max_right _ _
  · intro c t h
    refine ⟨?_, ?_⟩ <;> simp only [CpuData.update_lhm_data, h, if_false, Bool.false_eq_true]
    · exact le_max_left _ _
    · exact min_le_left _ _
  · intro c u cv
    refine ⟨?_, ?_⟩ <;> simp only [CpuData.update]
    · exact le_max_left _ _
    · exact min_le_left _ _
  · intro g q h
    refine ⟨?_, ?_, ?_, ?_⟩ <;>
      simp only [GpuData.update_lhm_data, h, if_false, Bool.false_eq_true]
    · exact le_max_left _ _
    · exact min_le_left _ _
    · exact le_max_left _ _
    · exact min_le_left _ _

/-- A concrete `CpuData` past its first update (`first_run = false`). -/
def c2cpu : CpuData := (CpuData.init "cpu" 0 []).update_lhm_data (50, 10, [])

/-- A concrete `GpuData` past its first update (`first_run = false`). -/
def c2gpu : GpuData := (GpuData.init "gpu").update_lhm_data
  { core_temp := 50, memory_junction_temp := 60, core_clock := 1000,
    memory_clock := 800, power := 200, core_load := 50,
    memory_used := 4, memory_total := 8 }

theorem C2_min_max_invariant_witness :
    cpuStatsInv (CpuData.applySteps (CpuData.init "cpu" 0 [])
      [CpuStep.lhm (50, 10, []), CpuStep.sysu 20 []])
    ∧ c2cpu.temp_max ≤ (c2cpu.update_lhm_data (60, 5, [])).temp_max
    ∧ c2cpu.usage_max ≤ (c2cpu.update 20 []).usage_max
    ∧ c2gpu.core_temp_max ≤ (c2gpu.update_lhm_data
        { core_temp := 70, memory_junction_temp := 60, core_clock := 1000,
          memory_clock := 800, power := 200, core_load := 50,
          memory_used := 4, memory_total := 8 }).core_temp_max :=
  ⟨C2_min_max_invariant.1 "cpu" 0 [] _,
   (C2_min_max_invariant.2.2.1 c2cpu (60, 5, []) rfl).1,
   (C2_min_max_invariant.2.2.2.1 c2cpu 20 []).1,
   (C2_min_max_invariant.2.2.2.2 c2gpu _ rfl).1⟩

/-- `GpuData` after `n` identical LHM updates. -/
def gpuIter : Nat → GpuData
  | 0 => GpuData.init "gpu"
  | n + 1 => (gpuIter n).update_lhm_data
      { core_temp := 50, memory_junction_temp := 60, core_clock := 1000,
        memory_clock := 800, power := 200, core_load := 50,
        memory_used := 4, memory_total := 8 }

/-- C3 (code bug): the GPU temperature histories are NOT capped at 30
samples: every `GpuData::update_lhm_data` grows both histories by one
unconditionally, and after 31 updates both have 31 elements, violating
the claimed `history.len() <= 30` bound (the CPU histories are capped,
the GPU ones are missing the eviction step — see the
`TODO: max vec size for averages` comment in `gpu_collector.rs`). -/
theorem C3_gpu_history_unbounded :
    (∀ (g : GpuData) (q : GpuLHMQuery),
      (g.update_lhm_data q).core_temp_avg.length = g.core_temp_avg.length + 1
      ∧ (g.update_lhm_data q).memory_junction_temp_avg.length
          = g.memory_junction_temp_avg.length + 1)
    ∧ (gpuIter 31).core_temp_avg.length = 31
    ∧ (gpuIter 31).memory_junction_temp_avg.length = 31 := by
  refine ⟨fun g q => ⟨?_, ?_⟩, ?_, ?_⟩
  · simp [GpuData.update_lhm_data]
  · simp [GpuData.update_lhm_data]
  · decide
  · decide

/-- A concrete `CpuData` with empty histories. -/
def c10cpu : CpuData := CpuData.init "cpu" 7 []

/-- A concrete `GpuData` with empty histories. -/
def c10gpu : GpuData := GpuData.init "gpu"

/-- C10: `CpuData::get_temp_avg` / `get_usage_avg` guard the empty
history and return the current reading, so they never divide by a
zero-length history; `GpuData::get_core_temp_avg` /
`get_memory_junction_temp_avg` have no such guard and divide by the
history length unconditionally — on an empty history the division is by
zero (`none` models the resulting `f32` NaN). -/
theorem C10_empty_history_guard :
    (∀ c : CpuData, c.temp_avg = [] → c.get_temp_avg = c.temp)
    ∧ (∀ c : CpuData, c.usage_avg = [] → c.get_usage_avg = c.usage)
    ∧ (∀ g : GpuData, g.core_temp_avg = [] → g.get_core_temp_avg = none)
    ∧ (∀ g : GpuData, g.memory_junction_temp_avg = [] →
        g.get_memory_junction_temp_avg = none) := by
  refine ⟨fun c h => ?_, fun c h => ?_, fun g h => ?_, fun g h => ?_⟩
  · simp [CpuData.get_temp_avg, h]
  · simp [CpuData.get_usage_avg, h]
  · simp [GpuData.get_core_temp_avg, h, f32div]
  · simp [GpuData.get_memory_junction_temp_avg, h, f32div]

theorem C10_empty_history_guard_witness :
    c10cpu.get_temp_avg = c10cpu.temp
    ∧ c10cpu.get_usage_avg = c10cpu.usage
    ∧ c10gpu.get_core_temp_avg = none
    ∧ c10gpu.get_memory_junction_temp_avg = none :=
  ⟨C10_empty_history_guard.1 c10cpu rfl,
   C10_empty_history_guard.2.1 c10cpu rfl,
   C10_empty_history_guard.2.2.1 c10gpu rfl,
   C10_empty_history_guard.2.2.2 c10gpu rfl⟩

/-! ## Claim C5: where the temperature unit conversion happens -/

/-- A CPU record whose current temperature reading is 100 °C. -/
def c5cpu : CpuData := (CpuData.init "TestCPU" 0 []).update_lhm_data (100, 0, [])

/-- C5 (counterexample): with Fahrenheit selected, the persisted
`HardwareLogEntry` built by the `CpuValuesUpdated` handler stores
`212`, not the Celsius-canonical sensor value `100`: conversion is
applied at write time, contrary to the claim. -/
theorem C5_counterexample :
    c5cpu.temp = 100
    ∧ (make_cpu_log_entry "2025-01-01T10:00:00+02:00" "" TempUnits.Fahrenheit
        c5cpu).temperature = 212
    ∧ (212 : ℚ) ≠ 100 := by
  refine ⟨rfl, ?_, by norm_num⟩
  have h : (make_cpu_log_entry "2025-01-01T10:00:00+02:00" "" TempUnits.Fahrenheit
      c5cpu).temperature = (100 : ℚ) * 9 / 5 + 32 := rfl
  rw [h]
  norm_num

/-- C5 (amended): the temperature stored in a persisted row is the
sensor value converted to the user-selected display unit at write time
(`TempUnits::Celsius.convert(temp, selected_unit)`), tagged with that
unit's name, and the time-series reconstruction in
`TemperatureGraph::update_data` uses the stored value as is, with no
per-point conversion. -/
theorem C5_amended :
    (∀ (ts p : String) (u : TempUnits) (c : CpuData),
      (make_cpu_log_entry ts p u c).temperature = TempUnits.convert .Celsius c.temp u
      ∧ (make_cpu_log_entry ts p u c).temperature_unit = u.name
      ∧ (u = .Celsius → (make_cpu_log_entry ts p u c).temperature = c.temp)
      ∧ (u = .Fahrenheit →
          (make_cpu_log_entry ts p u c).temperature = c.temp * 9 / 5 + 32))
    ∧ (∀ (ts p : String) (u : TempUnits) (g : GpuData),
      (make_gpu_log_entry ts p u g).temperature = TempUnits.convert .Celsius g.core_temp u
      ∧ (make_gpu_log_entry ts p u g).temperature_unit = u.name)
    ∧ (∀ (start_ts t : ℤ) (e : HardwareLogEntry),
      (temp_graph_point start_ts t e).2 = e.temperature) := by
  refine ⟨fun ts p u c => ⟨rfl, rfl, ?_, ?_⟩, fun ts p u g => ⟨rfl, rfl⟩,
    fun start_ts t e => rfl⟩
  · rintro rfl
    rfl
  · rintro rfl
    rfl

theorem C5_amended_witness :
    (make_cpu_log_entry "t" "" TempUnits.Celsius c5cpu).temperature = c5cpu.temp
    ∧ (make_cpu_log_entry "t" "" TempUnits.Fahrenheit c5cpu).temperature
        = c5cpu.temp * 9 / 5 + 32 :=
  ⟨(C5_amended.1 "t" "" TempUnits.Celsius c5cpu).2.2.1 rfl,
   (C5_amended.1 "t" "" TempUnits.Fahrenheit c5cpu).2.2.2 rfl⟩

/-! ## Claim C6: missing CPU temperature sensor -/

/-- A CPU device whose temperature sensor labels match none of the
priority-ordered matchers. -/
def c6dev : CpuDevice :=
  { tempSensors := [{ name := "Temperature 1", index := 0, value := 0 }]
    powerSensors := [{ name := "CPU Package", index := 1, value := 35 }]
    sensorValue := fun _ => some 50 }

/-- C6 (counterexample): on a device with no matching temperature
label, `lhm_cpu_queries` does not skip the device and return normally —
it panics via `expect("Missing cpu temp sensor")`, modelled as the
error result below.  The poll cycle is terminated, not continued. -/
theorem C6_counterexample :
    c6dev.tempSensors.find? matchesCpuTempSensor = none
    ∧ lhm_cpu_queries [c6dev] = .error "Missing cpu temp sensor" :=
  ⟨rfl, rfl⟩

/-- C6 (amended): whenever the device reached by the query loop has no
temperature sensor matching the priority-ordered matchers (exact
"CPU Package", exact "Core (Tctl/Tdie)", exact "CPU Core", contains
"Package", contains "Tctl"), `lhm_cpu_queries` aborts with the
`Missing cpu temp sensor` panic instead of skipping the device. -/
theorem C6_amended (dev : CpuDevice) (rest : List CpuDevice)
    (h : dev.tempSensors.find? matchesCpuTempSensor = none) :
    lhm_cpu_queries (dev :: rest) = .error "Missing cpu temp sensor" := by
  unfold lhm_cpu_queries lhmCpuGo
  rw [h]

/-- A second no-match device (different label) for the witness. -/
def c6dev2 : CpuDevice :=
  { tempSensors := [{ name := "Core Max", index := 3, value := 0 }]
    powerSensors := []
    sensorValue := fun _ => none }

theorem C6_amended_witness :
    lhm_cpu_queries [c6dev2, c6dev] = .error "Missing cpu temp sensor" :=
  C6_amended c6dev2 [c6dev] rfl

/-! ## Claim C7: gap segmentation -/

lemma segGo_spec (q : ℚ) :
    ∀ (rest : List (ℚ × ℚ)) (prev : ℚ × ℚ) (cur : List (ℚ × ℚ))
      (segs : List (List (ℚ × ℚ))),
      cur ≠ [] →
      cur.getLast? = some prev →
      List.Chain' (gapLE q) cur →
      (∀ s ∈ segs, s ≠ [] ∧ List.Chain' (gapLE q) s) →
      List.Chain' (segBreak q) segs →
      (∀ s, segs.getLast? = some s → segBreak q s cur) →
      (∀ s ∈ segGo q rest prev cur segs, s ≠ [] ∧ List.Chain' (gapLE q) s)
      ∧ List.Chain' (segBreak q) (segGo q rest prev cur segs)
      ∧ (segGo q rest prev cur segs).flatten = segs.flatten ++ cur ++ rest := by
  intro rest
  induction rest with
  | nil =>
    intro prev cur segs h1 h2 h3 h4 h5 h6
    have hne : cur.isEmpty = false := by simpa using h1
    simp only [segGo, hne, Bool.false_eq_true, if_false]
    refine ⟨?_, ?_, ?_⟩
    · intro s hs
      rcases List.mem_append.mp hs with hs | hs
      · exact h4 s hs
      · simp only [List.mem_singleton] at hs
        exact hs ▸ ⟨h1, h3⟩
    · refine List.chain'_append.mpr ⟨h5, List.chain'_singleton _, ?_⟩
      intro x hx y hy
      simp only [List.head?_cons, Option.mem_def, Option.some.injEq] at hy
      exact hy ▸ h6 x hx
    · simp
  | cons p rest2 ih =>
    intro prev cur segs h1 h2 h3 h4 h5 h6
    have hne : cur.isEmpty = false := by simpa using h1
    by_cases hgap : q < p.1 - prev.1
    · simp only [segGo, hne, Bool.false_eq_true, if_false, hgap, if_true]
      have hmem : ∀ s ∈ segs ++ [cur], s ≠ [] ∧ List.Chain' (gapLE q) s := by
        intro s hs
        rcases List.mem_append.mp hs with hs | hs
        · exact h4 s hs
        · simp only [List.mem_singleton] at hs
          exact hs ▸ ⟨h1, h3⟩
      have hchain : List.Chain' (segBreak q) (segs ++ [cur]) := by
        refine List.chain'_append.mpr ⟨h5, List.chain'_singleton _, ?_⟩
        intro x hx y hy
        simp only [List.head?_cons, Option.mem_def, Option.some.injEq] at hy
        exact hy ▸ h6 x hx
      have hjunct : ∀ s, (segs ++ [cur]).getLast? = some s → segBreak q s [p] := by
        intro s hs
        rw [List.getLast?_concat] at hs
        injection hs with hs
        subst hs
        intro a ha b hb
        rw [h2] at ha
        simp only [Option.mem_def, Option.some.injEq] at ha hb
        simp only [List.head?_cons, Option.some.injEq] at hb
        subst ha
        subst hb
        exact hgap
      obtain ⟨r1, r2, r3⟩ := ih p [p] (segs ++ [cur]) (List.cons_ne_nil _ _) rfl
        (List.chain'_singleton _) hmem hchain hjunct
      refine ⟨r1, r2, ?_⟩
      rw [r3]
      simp [List.flatten_append]
    · simp only [segGo, hne, Bool.false_eq_true, if_false, hgap, if_false]
      have h2' : (cur ++ [p]).getLast? = some p := List.getLast?_concat _
      have h3' : List.Chain' (gapLE q) (cur ++ [p]) := by
        refine List.chain'_append.mpr ⟨h3, List.chain'_singleton _, ?_⟩
        intro x hx y hy
        rw [h2] at hx
        simp only [Option.mem_def, Option.some.injEq] at hx
        simp only [List.head?_cons, Option.mem_def, Option.some.injEq] at hy
        subst hx
        subst hy
        exact not_lt.mp hgap
      have h6' : ∀ s, segs.getLast? = some s → segBreak q s (cur ++ [p]) := by
        intro s hs a ha b hb
        cases cur with
        | nil => exact absurd rfl h1
        | cons c0 cur' =>
          have hb' : c0 = b := by simpa using hb
          exact h6 s hs a ha b (by simp [hb'])
      obtain ⟨r1, r2, r3⟩ := ih p (cur ++ [p]) segs (by simp) h2' h3' h4 h5 h6'
      refine ⟨r1, r2, ?_⟩
      rw [r3]
      simp

lemma splitSegmentsGap_spec (q : ℚ) (points : List (ℚ × ℚ)) :
    (∀ s ∈ splitSegmentsGap q points, s ≠ [] ∧ List.Chain' (gapLE q) s)
    ∧ List.Chain' (segBreak q) (splitSegmentsGap q points)
    ∧ (splitSegmentsGap q points).flatten = points := by
  cases points with
  | nil => simp [splitSegmentsGap]
  | cons p rest =>
    have h := segGo_spec q rest p [p] [] (List.cons_ne_nil _ _) rfl
      (List.chain'_singleton _) (by simp) List.chain'_nil (by simp)
    simpa [splitSegmentsGap] using h

/-- C7: `split_into_segments` iterates the points in order and starts a
new segment exactly when the gap between consecutive x-values strictly
exceeds the threshold: the returned segments concatenate back to the
input, every segment is non-empty with all internal consecutive gaps
`≤ q`, consecutive segments are separated by a gap `> q`, the
spec example with threshold 1.0 yields the two expected segments, and a
gap exactly equal to the threshold stays inside one segment. -/
theorem C7_segmentation :
    (∀ (q : ℚ) (points : List (ℚ × ℚ)),
      (splitSegmentsGap q points).flatten = points
      ∧ (∀ s ∈ splitSegmentsGap q points, s ≠ [] ∧ List.Chain' (gapLE q) s)
      ∧ List.Chain' (segBreak q) (splitSegmentsGap q points))
    ∧ split_into_segments [(0, 0), (1/2, 1), (5, 2)]
        = [[(0, 0), (1/2, 1)], [(5, 2)]]
    ∧ splitSegmentsGap 1 [(0, 0), (1, 1)] = [[(0, 0), (1, 1)]] := by
  refine ⟨fun q points => ?_, ?_, ?_⟩
  · obtain ⟨a, b, c⟩ := splitSegmentsGap_spec q points
    exact ⟨c, a, b⟩
  · norm_num [split_into_segments, splitSegmentsGap, segGo, GAP_THRESHOLD_MINUTES]
  · norm_num [splitSegmentsGap, segGo]

theorem C7_segmentation_witness :
    ([((0 : ℚ), (0 : ℚ)), (1/2, 1)] : List (ℚ × ℚ)) ≠ []
    ∧ List.Chain' (gapLE 1) [((0 : ℚ), (0 : ℚ)), (1/2, 1)] := by
  have hmem : ([((0 : ℚ), (0 : ℚ)), (1/2, 1)] : List (ℚ × ℚ))
      ∈ splitSegmentsGap 1 [(0, 0), (1/2, 1), (5, 2)] := by
    rw [show splitSegmentsGap (1 : ℚ) [(0, 0), (1/2, 1), (5, 2)]
        = [[(0, 0), (1/2, 1)], [(5, 2)]] from C7_segmentation.2.1]
    simp
  exact (C7_segmentation.1 1 [(0, 0), (1/2, 1), (5, 2)]).2.1 _ hmem

/-! ## Claim C9: index metadata extraction and error containment -/

lemma checkGo_no_procs :
    ∀ (rows : List (Except String (List String))) (procs : List String) (n : Nat),
      (∀ r ∈ rows, ∃ rec, r = Except.ok rec
        ∧ (rec[1]? = none ∨ rec[1]? = some "")) →
      ∃ n2, checkGo rows procs n = .ok (procs, n2) := by
  intro rows
  induction rows with
  | nil => intro procs n _; exact ⟨n, rfl⟩
  | cons r rest ih =>
    intro procs n h
    obtain ⟨rec, hr, hfield⟩ := h r (List.mem_cons_self r rest)
    subst hr
    have step : checkGo (Except.ok rec :: rest) procs n = checkGo rest procs (n + 1) := by
      rcases hfield with hf | hf <;> simp [checkGo, hf]
    rw [step]
    exact ih procs (n + 1) (fun r2 hr2 => h r2 (List.mem_cons_of_mem _ hr2))

lemma checkGo_error :
    ∀ (rows : List (Except String (List String))) (procs : List String) (n : Nat),
      (∃ r ∈ rows, ∃ e, r = Except.error e) →
      ∃ msg, checkGo rows procs n = .error msg := by
  intro rows
  induction rows with
  | nil => intro _ _ h; obtain ⟨r, hr, -⟩ := h; exact absurd hr (List.not_mem_nil r)
  | cons r rest ih =>
    intro procs n h
    cases r with
    | error e => exact ⟨e, rfl⟩
    | ok rec =>
      obtain ⟨r2, hr2, e, he⟩ := h
      rcases List.mem_cons.mp hr2 with rfl | hr2
      · exact absurd he (by simp)
      · simpa [checkGo] using ih _ (n + 1) ⟨r2, hr2, e, he⟩

/-- The sample data row of the spec example: the `selected_process`
field (index 1) holds `"chrome.exe=1%@5MB,code.exe=2%@9MB"`. -/
def c9row : List String :=
  ["2025-01-01T10:00:00+02:00", "chrome.exe=1%@5MB,code.exe=2%@9MB",
   "CPU", "TestCPU", "Celsius", "50", "20", "30"]

/-- C9: the index metadata extracts annotation tokens by splitting the
annotation field on commas and taking the trimmed name before `=` of
each token, deduplicated (the spec example yields exactly
`{"chrome.exe", "code.exe"}` with `has_process_data = true`); rows with
no (or an empty) annotation field yield `has_process_data = false`; and
a file whose rows fail to parse still yields a metadata result with
zero entries and an empty token set instead of propagating the error. -/
theorem C9_metadata_scan :
    LogFileMetadata.from_path "01-01-2025_hardware_logs.csv" [Except.ok c9row]
      = some { filename := "01-01-2025_hardware_logs.csv"
               date := "01-01-2025"
               has_process_data := true
               processes := ["chrome.exe", "code.exe"]
               entry_count := 1 }
    ∧ (∀ (rows : List (Except String (List String))) (m : LogFileMetadata),
        (∀ r ∈ rows, ∃ rec, r = Except.ok rec
          ∧ (rec[1]? = none ∨ rec[1]? = some "")) →
        LogFileMetadata.from_path "02-01-2025_hardware_logs.csv" rows = some m →
        m.has_process_data = false)
    ∧ (∀ (pre post : List (Except String (List String))) (e : String),
        ∃ m, LogFileMetadata.from_path "03-01-2025_hardware_logs.csv"
            (pre ++ Except.error e :: post) = some m
          ∧ m.entry_count = 0 ∧ m.processes = [] ∧ m.has_process_data = false) := by
  refine ⟨by decide, ?_, ?_⟩
  · intro rows m hrows hm
    obtain ⟨n2, hok⟩ := checkGo_no_procs rows [] 0 hrows
    have hname : stripSuffixStr "02-01-2025_hardware_logs.csv" "_hardware_logs.csv"
        = some "02-01-2025" := by decide
    rw [show LogFileMetadata.from_path "02-01-2025_hardware_logs.csv" rows
        = some { filename := "02-01-2025_hardware_logs.csv", date := "02-01-2025",
                 has_process_data := false, processes := [], entry_count := n2 } by
      simp [LogFileMetadata.from_path, check_has_process_data, hok, hname]] at hm
    injection hm with hm
    rw [← hm]
  · intro pre post e
    obtain ⟨msg, herr⟩ := checkGo_error (pre ++ Except.error e :: post) [] 0
      ⟨Except.error e, by simp, e, rfl⟩
    have hname : stripSuffixStr "03-01-2025_hardware_logs.csv" "_hardware_logs.csv"
        = some "03-01-2025" := by decide
    refine ⟨{ filename := "03-01-2025_hardware_logs.csv", date := "03-01-2025",
              has_process_data := false, processes := [], entry_count := 0 },
      ?_, rfl, rfl, rfl⟩
    simp [LogFileMetadata.from_path, check_has_process_data, herr, hname]

theorem C9_metadata_scan_witness :
    (∀ m : LogFileMetadata,
      LogFileMetadata.from_path "02-01-2025_hardware_logs.csv"
        [Except.ok ["ts", ""], Except.ok ["ts2"]] = some m →
      m.has_process_data = false)
    ∧ ∃ m, LogFileMetadata.from_path "03-01-2025_hardware_logs.csv"
        [Except.error "CSV parse error"] = some m
        ∧ m.entry_count = 0 ∧ m.processes = [] ∧ m.has_process_data = false :=
  ⟨fun m hm => C9_metadata_scan.2.1 [Except.ok ["ts", ""], Except.ok ["ts2"]] m
      (by
        intro r hr
        rcases List.mem_cons.mp hr with rfl | hr2
        · exact ⟨["ts", ""], rfl, Or.inr rfl⟩
        rcases List.mem_cons.mp hr2 with rfl | h3
        · exact ⟨["ts2"], rfl, Or.inl rfl⟩
        exact absurd h3 (List.not_mem_nil r)) hm,
   C9_metadata_scan.2.2 [] [] "CSV parse error"⟩

/-! ## Claims C1, C4, C8: the Persistent Log Store -/

lemma fsLookup_append_new :
    ∀ (fs : FS) (p : String), fsLookup fs p = none →
      fsLookup (fs ++ [(p, [])]) p = some [] := by
  intro fs p
  induction fs with
  | nil => intro _; simp [fsLookup]
  | cons a rest ih =>
    intro h
    obtain ⟨ap, arows⟩ := a
    by_cases hap : ap = p
    · simp [fsLookup, hap] at h
    · simp only [fsLookup, hap, if_false, List.cons_append] at h ⊢
      exact ih h

lemma fsLookup_fsAppend :
    ∀ (fs : FS) (p : String) (row : List Cell),
      fsLookup (fsAppend fs p row) p
        = (fsLookup fs p).map (fun rows => rows ++ [row]) := by
  intro fs p row
  induction fs with
  | nil => simp [fsLookup, fsAppend]
  | cons a rest ih =>
    obtain ⟨ap, arows⟩ := a
    by_cases hap : ap = p
    · simp [fsLookup, fsAppend, hap]
    · simp only [fsLookup, fsAppend, hap, if_false]
      exact ih

/-- Append-mode open with header-iff-new: after `open_csv_writer`, the
file at `p` holds its previous contents followed by the header record
exactly when the file did not previously exist. -/
lemma open_csv_writer_contents (fs : FS) (p : String) :
    fsLookup (open_csv_writer fs p).2 p
      = some ((fsLookup fs p).getD [] ++ if fsExists fs p then [] else [headerRow]) := by
  by_cases h : fsExists fs p
  · rcases hl : fsLookup fs p with - | rows
    · rw [fsExists, hl] at h
      simp at h
    · simp [open_csv_writer, fsCreate, h, hl]
  · have hnone : fsLookup fs p = none := by
      rcases hl : fsLookup fs p with - | rows
      · rfl
      · rw [fsExists, hl] at h
        simp at h
    simp [open_csv_writer, fsCreate, h, fsLookup_fsAppend,
      fsLookup_append_new fs p hnone, hnone]

/-- A sample log entry. -/
def sampleEntry : HardwareLogEntry :=
  { timestamp := "2025-01-01T10:00:00+02:00"
    selected_process := ""
    component_type := .CPU
    model_name := "TestCPU"
    temperature_unit := "Celsius"
    temperature := 65, usage := 45, power_draw := 35 }

/-- A second sample log entry. -/
def sampleEntry2 : HardwareLogEntry :=
  { timestamp := "2025-01-02T10:00:00+02:00"
    selected_process := ""
    component_type := .CPU
    model_name := "TestCPU"
    temperature_unit := "Celsius"
    temperature := 70, usage := 50, power_draw := 38 }

/-- Fresh logger in debug mode (custom directory, buffer size 1). -/
def c4s0 : CsvLogger × FS := CsvLogger.new (some "d") true "01-01-2025" []

/-- One same-day write of one entry: the size-1 write buffer triggers an
immediate flush. -/
def c4w : (CsvLogger × FS) × Option String :=
  CsvLogger.write true "01-01-2025" [sampleEntry] c4s0.1 c4s0.2

/-- C4 (code bug): the header record written for a brand-new file has 6
fields while a serialized `HardwareLogEntry` has 8
(`selected_process` and `model_name` are missing from the header), so
the non-flexible CSV writer rejects every data row with
`UnequalLengths`: writing one entry to a fresh logger fails, a
follow-up explicit flush fails the same way, and reading the file back
yields 0 entries instead of the 1 entry written — the write/read
round-trip claimed by the spec does not hold. -/
theorem C4_roundtrip_broken :
    headerRow.length = 6
    ∧ (serializeEntry sampleEntry).length = 8
    ∧ c4w.2 = some "UnequalLengths"
    ∧ (CsvLogger.flush_buffer c4w.1.1 c4w.1.2).2 = some "UnequalLengths"
    ∧ CsvLogger.read c4w.1.1 c4w.1.2 = Except.ok ([] : List HardwareLogEntry)
    ∧ ([] : List HardwareLogEntry).length ≠ [sampleEntry].length := by
  exact ⟨rfl, rfl, rfl, rfl, rfl, by decide⟩

/-- The C1 scenario: same fresh debug logger; first write on day 1,
second write with the internal date marker at day 2. -/
def c1r1 : (CsvLogger × FS) × Option String :=
  CsvLogger.write true "01-01-2025" [sampleEntry] c4s0.1 c4s0.2

def c1r2 : (CsvLogger × FS) × Option String :=
  CsvLogger.write true "02-01-2025" [sampleEntry2] c1r1.1.1 c1r1.1.2

/-- C1 (code bug): on the date-rollover write, `write` does call
`flush_buffer` under the old path before switching — but that flush
fails with `UnequalLengths` (six-field header vs eight-field rows), the
error propagates out of `write` before the rotation, and the logger
stays on the old day: after both writes only the single original file
exists, containing nothing but the header, and no second-day file was
created — instead of the claimed two distinct non-empty files each
holding its entries. -/
theorem C1_rotation_flush_fails :
    c1r1.2 = some "UnequalLengths"
    ∧ c1r2.2 = some "UnequalLengths"
    ∧ c1r2.1.1.path = "d/01-01-2025_cpu_logs.csv"
    ∧ c1r2.1.1.timestampDate = "01-01-2025"
    ∧ c1r2.1.2 = [("d/01-01-2025_cpu_logs.csv", [headerRow])]
    ∧ fsExists c1r2.1.2 "logs/02-01-2025_hardware_logs.csv" = false := by
  exact ⟨rfl, rfl, rfl, rfl, rfl, rfl⟩

/-- Rotation with an empty write buffer (the only way the rotation
branch completes): the new path uses the `_hardware_logs.csv` name. -/
def c8rot : (CsvLogger × FS) × Option String :=
  CsvLogger.write true "02-01-2025" [] c4s0.1 c4s0.2

/-- C8 (code bug): the file created by `CsvLogger::new` is named
`DD-MM-YYYY_cpu_logs.csv`, not the claimed
`DD-MM-YYYY_hardware_logs.csv` — the name the rotation path uses and
the only name `LogFileMetadata::from_path` accepts, so day-one files
are invisible to the history index.  The append-mode/header behaviour
of the claim does hold: a file is opened preserving its contents and
the header record is written exactly when the file did not previously
exist. -/
theorem C8_construction_filename :
    (CsvLogger.new (some "d") true "01-01-2025" []).1.path
        = "d/01-01-2025_cpu_logs.csv"
    ∧ stripSuffixStr "01-01-2025_cpu_logs.csv" "_hardware_logs.csv" = none
    ∧ "d/01-01-2025_cpu_logs.csv" ≠ "d/01-01-2025_hardware_logs.csv"
    ∧ c8rot.1.1.path = "logs/02-01-2025_hardware_logs.csv"
    ∧ (∀ (fs : FS) (p : String),
        fsLookup (open_csv_writer fs p).2 p
          = some ((fsLookup fs p).getD []
              ++ if fsExists fs p then [] else [headerRow])) := by
  exact ⟨rfl, by decide, by decide, rfl, open_csv_writer_contents⟩
